import Mathlib

/-!
Verification development for the EurekAnno annotation engine.

The definitions below are shallow embeddings of the repository's code:
* `convert_to_yolo_format` and its helpers embed the Python function of the
  same name in `app/utils/conversion.py` (YOLO export).
* The geometry helpers (`denormalizeBbox`, `shiftBboxAndMask`, ...) embed the
  pure functions at the top of the `AnnotationCanvas` React component.
* `AppState`, the store operations and the event step function embed the
  React context (`AppContext`) state plus the canvas interaction handlers
  (`handleMouseDown` / `handleMouseMove` / `handleMouseUp`, the mode buttons,
  the keyboard handler, and the "clear selection when hidden" effect).

Numeric values are modelled as exact rationals (`ℚ`).
-/

namespace EurekAnno

/-! ## YOLO export (`app/utils/conversion.py`, `convert_to_yolo_format`) -/

/-- A Python value fed to `float(...)`: either a number (`float` succeeds)
or anything else (`float` raises `TypeError`/`ValueError`). -/
inductive PyVal where
  | num (q : ℚ)
  | nonnum
deriving DecidableEq

/-- One annotation dict as read by `convert_to_yolo_format`: the
`category_name` key, the optional direct `x`/`y`/`width`/`height` keys and
the optional `bbox` list. -/
structure Annotation where
  category_name : Option String
  x : Option PyVal
  y : Option PyVal
  width : Option PyVal
  height : Option PyVal
  bbox : Option (List PyVal)
deriving DecidableEq

/-- `float(v)`: succeeds exactly on numbers. -/
def pyFloat : PyVal → Except Unit ℚ
  | .num q => .ok q
  | .nonnum => .error ()

/-- `float(ann.get(key, ann.get('bbox', [0, 0, 0, 0])[i]))`.  Python
evaluates the default expression eagerly, so a present-but-too-short
`bbox` raises `IndexError` even when the direct key exists. -/
def getCoord (direct : Option PyVal) (bbox : Option (List PyVal)) (i : ℕ) :
    Except Unit ℚ := do
  let bb := bbox.getD [.num 0, .num 0, .num 0, .num 0]
  let dflt ← match bb.get? i with
    | some v => Except.ok v
    | none => Except.error ()
  pyFloat (direct.getD dflt)

/-- The four coordinate reads of `convert_to_yolo_format`
(`x_min`, `y_min`, `width`, `height`). -/
def extractBox (ann : Annotation) : Except Unit (ℚ × ℚ × ℚ × ℚ) := do
  let x_min ← getCoord ann.x ann.bbox 0
  let y_min ← getCoord ann.y ann.bbox 1
  let w ← getCoord ann.width ann.bbox 2
  let h ← getCoord ann.height ann.bbox 3
  return (x_min, y_min, w, h)

/-- `max(0.0, min(1.0, v))`. -/
def clamp01 (q : ℚ) : ℚ := max 0 (min 1 q)

/-- Left-pad a natural number with zeros to six digits. -/
def pad6 (n : ℕ) : String :=
  let s := toString n
  String.mk (List.replicate (6 - s.length) '0') ++ s

/-- Python's `f"{v:.6f}"` for a non-negative rational: round to six
decimal places and print with exactly six fractional digits. -/
def fmt6 (q : ℚ) : String :=
  let n : ℕ := (⌊q * 1000000 + 1 / 2⌋).toNat
  toString (n / 1000000) ++ "." ++ pad6 (n % 1000000)

/-- `f"{class_id} {x_center_norm:.6f} {y_center_norm:.6f} {width_norm:.6f} {height_norm:.6f}"`. -/
def yoloLine (class_id : ℤ) (xcN ycN wN hN : ℚ) : String :=
  String.intercalate " " [toString class_id, fmt6 xcN, fmt6 ycN, fmt6 wN, fmt6 hN]

/-- The per-annotation body of the loop in `convert_to_yolo_format`:
`some line` when the annotation is emitted, `none` when it is skipped
(unknown/missing class, or a `KeyError`/`TypeError`/`ValueError`/`IndexError`
while reading the coordinates). -/
def annotationLine (class_name_to_id : List (String × ℤ)) (image_width image_height : ℤ)
    (ann : Annotation) : Option String :=
  match ann.category_name with
  | none => none
  | some class_name =>
    match class_name_to_id.lookup class_name with
    | none => none
    | some class_id =>
      match extractBox ann with
      | .error _ => none
      | .ok (x_min, y_min, w, h) =>
        let x_center := x_min + w / 2
        let y_center := y_min + h / 2
        let x_center_norm := clamp01 (x_center / (image_width : ℚ))
        let y_center_norm := clamp01 (y_center / (image_height : ℚ))
        let width_norm := clamp01 (w / (image_width : ℚ))
        let height_norm := clamp01 (h / (image_height : ℚ))
        some (yoloLine class_id x_center_norm y_center_norm width_norm height_norm)

/-- `convert_to_yolo_format(annotations, image_width, image_height, class_name_to_id)`. -/
def convert_to_yolo_format (annotations : List Annotation)
    (image_width image_height : ℤ) (class_name_to_id : List (String × ℤ)) : String :=
  if annotations = [] ∨ image_width ≤ 0 ∨ image_height ≤ 0 then ""
  else
    String.intercalate "\n"
      (annotations.filterMap (annotationLine class_name_to_id image_width image_height))

/-! ## Coordinate geometry (`AnnotationCanvas` pure helpers) -/

/-- A bounding box in normalized `[x1, y1, x2, y2]` form. -/
structure NBox where
  x1 : ℚ
  y1 : ℚ
  x2 : ℚ
  y2 : ℚ
deriving DecidableEq

/-- A box in absolute pixel `{x, y, width, height}` form (also the shape of
the canvas' in-progress `currentBox`). -/
structure AbsBox where
  x : ℚ
  y : ℚ
  width : ℚ
  height : ℚ
deriving DecidableEq

/-- `denormalizeBbox(bbox, imgW, imgH)`: normalized `[x1, y1, x2, y2]` to
absolute `{x, y, width, height}`. -/
def denormalizeBbox (bbox : NBox) (imgW imgH : ℚ) : AbsBox :=
  { x := bbox.x1 * imgW
    y := bbox.y1 * imgH
    width := (bbox.x2 - bbox.x1) * imgW
    height := (bbox.y2 - bbox.y1) * imgH }

/-- The absolute-to-normalized conversion used by `handleMouseUp` when a
drawn `{x, y, width, height}` box is committed:
`[x/W, y/H, (x+width)/W, (y+height)/H]`. -/
def normalizeAbsBox (b : AbsBox) (imgW imgH : ℚ) : NBox :=
  { x1 := b.x / imgW
    y1 := b.y / imgH
    x2 := (b.x + b.width) / imgW
    y2 := (b.y + b.height) / imgH }

/-- One detected/drawn object as stored in a detection result
(`{ class_id, bbox, mask, confidence }`); the mask is a list of absolute
pixel points. -/
structure Obj where
  class_id : ℤ
  bbox : NBox
  mask : Option (List (ℚ × ℚ))
  confidence : ℚ
deriving DecidableEq

/-- `shiftBboxAndMask(obj, dx, dy, imgW, imgH)`: shift the box's absolute
coordinates by `(dx, dy)` and renormalize; shift every mask point by the
same `(dx, dy)` (`null` mask stays `null`). -/
def shiftBboxAndMask (obj : Obj) (dx dy imgW imgH : ℚ) :
    NBox × Option (List (ℚ × ℚ)) :=
  ({ x1 := (obj.bbox.x1 * imgW + dx) / imgW
     y1 := (obj.bbox.y1 * imgH + dy) / imgH
     x2 := (obj.bbox.x2 * imgW + dx) / imgW
     y2 := (obj.bbox.y2 * imgH + dy) / imgH },
   obj.mask.map (List.map fun pt => (pt.1 + dx, pt.2 + dy)))

/-- The translation edit as committed by `handleGroupDragEnd`:
`shiftBboxAndMask` followed by `updateBboxInResults(index, nbbox, nmask)`
(a `null` mask leaves the stored mask untouched). -/
def translateObj (obj : Obj) (dx dy imgW imgH : ℚ) : Obj :=
  let r := shiftBboxAndMask obj dx dy imgW imgH
  { obj with
      bbox := r.1
      mask := match r.2 with
        | some m => some m
        | none => obj.mask }

/-! ## Object set store (`AppContext`) -/

/-- A detection result set for one image: the class-name table and the
ordered object list. -/
structure ResultSet where
  classes : List String
  objects : List Obj
deriving DecidableEq

/-- `addBboxToResults(bbox, classId, mask)`: appends
`{ class_id, bbox, mask, confidence: 1 }` — but only when a result set
for the current image already exists (`if (!res[currentImage.id]) return prev`). -/
def addBboxToResults (res : Option ResultSet) (bbox : NBox) (classId : ℤ)
    (mask : Option (List (ℚ × ℚ))) : Option ResultSet :=
  match res with
  | none => none
  | some rs =>
    some { rs with
             objects := rs.objects ++
               [{ class_id := classId, bbox := bbox, mask := mask, confidence := 1 }] }

/-- `updateBboxInResults(index, updatedBbox, updatedMask)`: replaces the
object's bbox, and its mask only when `updatedMask` is non-null; a missing
result set or an out-of-range index is a no-op. -/
def updateBboxInResults (res : Option ResultSet) (index : ℕ) (updatedBbox : NBox)
    (updatedMask : Option (List (ℚ × ℚ))) : Option ResultSet :=
  match res with
  | none => none
  | some rs =>
    match rs.objects.get? index with
    | none => some rs
    | some obj =>
      some { rs with
               objects := rs.objects.set index
                 { obj with
                     bbox := updatedBbox
                     mask := match updatedMask with
                       | some m => some m
                       | none => obj.mask } }

/-- `updateObjectClass(index, newClassId)`. -/
def updateObjectClass (res : Option ResultSet) (index : ℕ) (newClassId : ℤ) :
    Option ResultSet :=
  match res with
  | none => none
  | some rs =>
    match rs.objects.get? index with
    | none => some rs
    | some obj => some { rs with objects := rs.objects.set index { obj with class_id := newClassId } }

/-- The `setDetectionResults` half of `removeBboxFromResults`:
`objects.splice(index, 1)`. -/
def removeObjects (res : Option ResultSet) (index : ℕ) : Option ResultSet :=
  match res with
  | none => none
  | some rs => some { rs with objects := rs.objects.eraseIdx index }

/-- The `setHiddenObjects` half of `removeBboxFromResults`: when the removed
index was itself hidden, drop it and shift the larger entries down by one;
otherwise (`if (!hidden.includes(index)) return prev`) leave the hidden set
untouched. -/
def removeHidden (hidden : List ℕ) (index : ℕ) : List ℕ :=
  if index ∈ hidden then
    (hidden.filter fun i => i ≠ index).map fun i => if index < i then i - 1 else i
  else hidden

/-- `removeBboxFromResults(index)`: the two state updates together. -/
def removeBboxFromResults (res : Option ResultSet) (hidden : List ℕ) (index : ℕ) :
    Option ResultSet × List ℕ :=
  (removeObjects res index, removeHidden hidden index)

/-- What the spec's `remove(index)` contract demands of the hidden set in
every case: drop `index` and shift every larger entry down by one,
regardless of whether `index` itself was hidden. -/
def shiftedHiddenSpec (hidden : List ℕ) (index : ℕ) : List ℕ :=
  (hidden.filter fun i => i ≠ index).map fun i => if index < i then i - 1 else i

/-- `toggleObjectVisibility(index)`: flip membership of `index` in the
hidden-index list. -/
def toggleObjectVisibility (hidden : List ℕ) (index : ℕ) : List ℕ :=
  if index ∈ hidden then hidden.filter (fun i => i ≠ index) else hidden ++ [index]

/-! ## Interaction state machine (`AnnotationCanvas` + `AppContext`) -/

/-- The canvas `EDIT_MODES`. -/
inductive EditMode where
  | select
  | draw
  | pan
deriving DecidableEq

/-- The `DETECTION_MODES` of the app context. -/
inductive DetMode where
  | textPrompt
  | imagePrompt
  | promptFree
deriving DecidableEq

/-- The combined per-image state: the context's store fields
(`detectionResults[currentImage.id]`, `hiddenObjects[currentImage.id]`,
`imagePrompts`) plus the canvas component state. -/
structure AppState where
  results : Option ResultSet
  hidden : List ℕ
  imagePromptBoxes : List NBox
  imagePromptCls : List ℤ
  detectionMode : DetMode
  editMode : EditMode
  drawing : Bool
  startPoint : ℚ × ℚ
  currentBox : Option AbsBox
  selectedObjectIndex : Option ℕ
  isDragging : Bool
  stagePosition : ℚ × ℚ
  scale : ℚ
  imgW : ℚ
  imgH : ℚ
  imageLoaded : Bool
deriving DecidableEq

/-- The events the handlers react to.  `mouseDownStage` is a pointer-down
whose target is the stage itself; `mouseMove` carries the pointer position
and the device-pixel movement deltas; `selectObject` is a click on a
rendered object; `toggleVisibility` comes from the results panel;
`deleteSelected` covers both the Delete key and the delete button. -/
inductive Event where
  | imageLoad (w h sc : ℚ)
  | setDetectionMode (m : DetMode)
  | detectionArrived (r : ResultSet)
  | switchMode (m : EditMode)
  | mouseDownStage (px py : ℚ)
  | mouseMove (px py mdx mdy : ℚ)
  | mouseUp
  | selectObject (i : ℕ)
  | toggleVisibility (i : ℕ)
  | deleteSelected
  | escape
  | updateBbox (i : ℕ) (b : NBox) (m : Option (List (ℚ × ℚ)))
  | setClassOfSelected (cid : ℤ)
deriving DecidableEq

/-- `handleMouseDown` restricted to a pointer-down whose target is the
stage itself: clear the selection, then start panning or start drawing a
box at the image-space point `(px - pan)/scale`. -/
def handleMouseDown (s : AppState) (px py : ℚ) : AppState :=
  let s0 := { s with selectedObjectIndex := none }
  if s0.editMode = EditMode.pan then { s0 with isDragging := true }
  else if s0.editMode = EditMode.draw then
    let x := (px - s0.stagePosition.1) / s0.scale
    let y := (py - s0.stagePosition.2) / s0.scale
    { s0 with
        drawing := true, startPoint := (x, y),
        currentBox := some { x := x, y := y, width := 0, height := 0 } }
  else s0

/-- `handleMouseMove`: pan by the device-pixel movement deltas, or grow the
in-progress box towards the current image-space pointer position. -/
def handleMouseMove (s : AppState) (px py mdx mdy : ℚ) : AppState :=
  if s.isDragging ∧ s.editMode = EditMode.pan then
    { s with stagePosition := (s.stagePosition.1 + mdx, s.stagePosition.2 + mdy) }
  else if s.drawing ∧ s.editMode = EditMode.draw then
    let x := (px - s.stagePosition.1) / s.scale
    let y := (py - s.stagePosition.2) / s.scale
    { s with
        currentBox := some
          { x := min x s.startPoint.1, y := min y s.startPoint.2,
            width := |x - s.startPoint.1|, height := |y - s.startPoint.2| } }
  else s

/-- The minimum-size commit block of `handleMouseUp` (the `s1` value): an
above-threshold box goes to the image-prompt list in image-prompt detection
mode and otherwise is appended to the result set when one exists; a
sub-threshold box changes nothing. -/
def finalizeDrawnBox (s : AppState) (box : AbsBox) : AppState :=
  if box.width > 5 ∧ box.height > 5 then
    if s.detectionMode = DetMode.imagePrompt then
      { s with
          imagePromptBoxes := s.imagePromptBoxes ++ [normalizeAbsBox box s.imgW s.imgH]
          imagePromptCls := s.imagePromptCls ++ [0] }
    else if s.results.isSome then
      { s with results := addBboxToResults s.results (normalizeAbsBox box s.imgW s.imgH) 0 none }
    else s
  else s

/-- `handleMouseUp`: stop panning, or finalize the drawn box.  The box is
committed only when both dimensions exceed 5 image-space pixels; either way
the gesture ends (`drawing := false`, `currentBox := null`) — but only when
the mode is Draw; in any other mode nothing at all is reset. -/
def handleMouseUp (s : AppState) : AppState :=
  if s.isDragging ∧ s.editMode = EditMode.pan then { s with isDragging := false }
  else
    match s.currentBox with
    | some box =>
      if s.drawing ∧ s.imageLoaded ∧ s.editMode = EditMode.draw then
        { finalizeDrawnBox s box with drawing := false, currentBox := none }
      else s
    | none => s

/-- One raw event dispatch, before React effects run. -/
def rawStep (e : Event) (s : AppState) : AppState :=
  match e with
  | .imageLoad w h sc =>
    { s with
        imgW := w, imgH := h, scale := sc, imageLoaded := true,
        stagePosition := (0, 0), selectedObjectIndex := none,
        editMode := EditMode.select }
  | .setDetectionMode m =>
    { s with
        detectionMode := m,
        editMode := if m = DetMode.imagePrompt then EditMode.draw else EditMode.select }
  | .detectionArrived r =>
    { s with results := some r, editMode := EditMode.select }
  | .switchMode m => { s with editMode := m }
  | .mouseDownStage px py => handleMouseDown s px py
  | .mouseMove px py mdx mdy => handleMouseMove s px py mdx mdy
  | .mouseUp => handleMouseUp s
  | .selectObject i =>
    if s.editMode = EditMode.select then { s with selectedObjectIndex := some i } else s
  | .toggleVisibility i => { s with hidden := toggleObjectVisibility s.hidden i }
  | .deleteSelected =>
    match s.selectedObjectIndex with
    | some i =>
      if s.results.isSome then
        { s with
            results := (removeBboxFromResults s.results s.hidden i).1,
            hidden := (removeBboxFromResults s.results s.hidden i).2,
            selectedObjectIndex := none }
      else s
    | none => s
  | .escape => { s with selectedObjectIndex := none, drawing := false, currentBox := none }
  | .updateBbox i b m => { s with results := updateBboxInResults s.results i b m }
  | .setClassOfSelected cid =>
    match s.selectedObjectIndex with
    | some i =>
      if s.results.isSome then { s with results := updateObjectClass s.results i cid } else s
    | none => s

/-- The canvas effect `if (selectedObjectIndex !== null &&
hiddenObjects.includes(selectedObjectIndex)) setSelectedObjectIndex(null)`,
which React runs after every state update. -/
def applyHiddenSelectionEffect (s : AppState) : AppState :=
  match s.selectedObjectIndex with
  | none => s
  | some i => if i ∈ s.hidden then { s with selectedObjectIndex := none } else s

/-- A full event step: the raw handler followed by the effect pass. -/
def step (e : Event) (s : AppState) : AppState :=
  applyHiddenSelectionEffect (rawStep e s)

/-- The component's initial state (React `useState` defaults). -/
def initState : AppState :=
  { results := none, hidden := [], imagePromptBoxes := [], imagePromptCls := [],
    detectionMode := DetMode.textPrompt, editMode := EditMode.select,
    drawing := false, startPoint := (0, 0), currentBox := none,
    selectedObjectIndex := none, isDragging := false, stagePosition := (0, 0),
    scale := 1, imgW := 0, imgH := 0, imageLoaded := false }

/-- States reachable from the initial state by event steps. -/
inductive Reachable : AppState → Prop where
  | start : Reachable initState
  | next (e : Event) {s : AppState} : Reachable s → Reachable (step e s)

/-- Run a list of events left to right. -/
def runTrace (l : List Event) (s : AppState) : AppState :=
  l.foldl (fun t e => step e t) s

/-- The selection invariant: a hidden index is never the selected index. -/
def selectionConsistent (s : AppState) : Prop :=
  ∀ i : ℕ, s.selectedObjectIndex = some i → i ∉ s.hidden

/-! ## Concrete inputs used by witnesses and counterexamples -/

/-- A simple stored object with a given class id. -/
def mkObj (n : ℤ) : Obj :=
  { class_id := n, bbox := { x1 := 0, y1 := 0, x2 := 1, y2 := 1 }, mask := none,
    confidence := 1 }

/-- Three objects with the third one hidden. -/
def rsThree : ResultSet := { classes := ["a"], objects := [mkObj 0, mkObj 1, mkObj 2] }

/-- An annotation with class `"c"` and absolute bbox `[0, 0, 100, 50]`
(x_min, y_min, width, height). -/
def annYolo : Annotation :=
  { category_name := some "c", x := none, y := none, width := none, height := none,
    bbox := some [.num 0, .num 0, .num 100, .num 50] }

/-- An annotation whose class name does not resolve. -/
def annUnknownClass : Annotation :=
  { category_name := some "zzz", x := none, y := none, width := none, height := none,
    bbox := some [.num 0, .num 0, .num 10, .num 10] }

/-- An annotation with malformed box data (a non-numeric `bbox` entry). -/
def annMalformed : Annotation :=
  { category_name := some "c", x := none, y := none, width := none, height := none,
    bbox := some [.nonnum, .num 0, .num 10, .num 10] }

/-- Mid-draw state in `text-prompt` detection mode with an above-threshold
box and no result set for the image. -/
def sDrawText : AppState :=
  { initState with
      imageLoaded := true, imgW := 100, imgH := 100,
      editMode := EditMode.draw, drawing := true,
      currentBox := some { x := 0, y := 0, width := 10, height := 10 },
      detectionMode := DetMode.textPrompt }

/-- Mid-draw state in `prompt-free` detection mode with an above-threshold
box and no result set for the image. -/
def sDrawFree : AppState :=
  { sDrawText with detectionMode := DetMode.promptFree }

/-- Mid-draw state like `sDrawText` but with a sub-threshold 3×3 box. -/
def sSmallBox : AppState :=
  { sDrawText with currentBox := some { x := 0, y := 0, width := 3, height := 3 } }

/-- Event trace prefix: load an image, enter image-prompt mode (which
selects the Draw tool), start a drag gesture growing a 10×10 box, and
switch the mode away from Draw mid-gesture. -/
def traceModeSwitchPrefix : List Event :=
  [Event.imageLoad 100 100 1,
   Event.setDetectionMode DetMode.imagePrompt,
   Event.mouseDownStage 0 0,
   Event.mouseMove 10 10 0 0,
   Event.switchMode EditMode.select]

/-- The full trace: after switching away mid-gesture, switch back to Draw
and release the pointer. -/
def traceModeSwitch : List Event :=
  traceModeSwitchPrefix ++ [Event.switchMode EditMode.draw, Event.mouseUp]

/-! ## Helper lemmas -/

theorem clamp01_of_mem (q : ℚ) (h0 : 0 ≤ q) (h1 : q ≤ 1) : clamp01 q = q := by
  unfold clamp01
  rw [min_eq_right h1, max_eq_right h0]

theorem intercalate_line (s : String) :
    String.intercalate " " [s, "0.250000", "0.250000", "0.500000", "0.500000"] =
      s ++ " 0.250000 0.250000 0.500000 0.500000" := by
  show ((((((((s ++ " ") ++ "0.250000") ++ " ") ++ "0.250000") ++ " ") ++ "0.500000") ++ " ")
      ++ "0.500000") = s ++ " 0.250000 0.250000 0.500000 0.500000"
  simp only [String.append_assoc]
  congr 1

theorem fmt6_quarter : fmt6 (1 / 4) = "0.250000" := by
  have h : (⌊(1 / 4 : ℚ) * 1000000 + 1 / 2⌋ : ℤ) = 250000 := by
    norm_num [Int.floor_eq_iff]
  simp only [fmt6, h]
  decide

theorem fmt6_half : fmt6 (1 / 2) = "0.500000" := by
  have h : (⌊(1 / 2 : ℚ) * 1000000 + 1 / 2⌋ : ℤ) = 500000 := by
    norm_num [Int.floor_eq_iff]
  simp only [fmt6, h]
  decide

theorem translateObj_mask (obj : Obj) (dx dy W H : ℚ) :
    (translateObj obj dx dy W H).mask =
      obj.mask.map (List.map fun pt => (pt.1 + dx, pt.2 + dy)) := by
  unfold translateObj shiftBboxAndMask
  cases h : obj.mask <;> simp [h]

/-- Annotations the export loop skips with a warning instead of emitting. -/
def skippedAnnotation (class_name_to_id : List (String × ℤ)) (ann : Annotation) : Prop :=
  ann.category_name = none ∨
  (∃ cn, ann.category_name = some cn ∧ class_name_to_id.lookup cn = none) ∨
  extractBox ann = Except.error ()

theorem annotationLine_of_skipped (class_name_to_id : List (String × ℤ))
    (W H : ℤ) (ann : Annotation) (h : skippedAnnotation class_name_to_id ann) :
    annotationLine class_name_to_id W H ann = none := by
  unfold annotationLine
  split
  · rfl
  next cn hcat =>
    split
    · rfl
    next cid hlk =>
      split
      · rfl
      next x1 y1 w hh hex =>
        rcases h with h | ⟨cn2, hcn2, hlk2⟩ | hex2
        · rw [hcat] at h
          cases h
        · rw [hcat] at hcn2
          injection hcn2 with e
          subst e
          rw [hlk] at hlk2
          cases hlk2
        · rw [hex] at hex2
          cases hex2

/-! ## Claims -/

/-- C1 (code_bug evaluation): removing index 0 while only index 2 is hidden
leaves the hidden set `[2]` untouched — `removeBboxFromResults` early-returns
the hidden list whenever the removed index is not itself hidden — whereas the
claimed (and spec-mandated) renumbering would yield `[1]`.  The object list
itself is spliced correctly. -/
theorem removeBbox_hidden_not_shifted :
    removeBboxFromResults (some rsThree) [2] 0 =
      (some { classes := ["a"], objects := [mkObj 1, mkObj 2] }, [2]) ∧
    shiftedHiddenSpec [2] 0 = [1] ∧
    (removeBboxFromResults (some rsThree) [2] 0).2 ≠ shiftedHiddenSpec [2] 0 := by
  refine ⟨rfl, rfl, ?_⟩
  decide

/-- C2: for every annotation whose class resolves and whose coordinates
read back as numbers, the export emits the line
`"{classId} {xcN:.6f} {ycN:.6f} {wN:.6f} {hN:.6f}"` built from the clamped
normalized center/size, with `xc = x_min + width/2` and
`yc = y_min + height/2`; and the absolute bbox `[0, 0, 100, 50]` on a
`200×100` image yields `"{id} 0.250000 0.250000 0.500000 0.500000"`. -/
theorem yolo_export_line :
    (∀ (class_name_to_id : List (String × ℤ)) (W H : ℤ) (ann : Annotation)
        (cn : String) (cid : ℤ) (x1 y1 w h : ℚ),
        ann.category_name = some cn →
        class_name_to_id.lookup cn = some cid →
        extractBox ann = Except.ok (x1, y1, w, h) →
        annotationLine class_name_to_id W H ann =
          some (yoloLine cid (clamp01 ((x1 + w / 2) / (W : ℚ)))
            (clamp01 ((y1 + h / 2) / (H : ℚ)))
            (clamp01 (w / (W : ℚ))) (clamp01 (h / (H : ℚ))))) ∧
    (∀ cid : ℤ,
        convert_to_yolo_format [annYolo] 200 100 [("c", cid)] =
          toString cid ++ " 0.250000 0.250000 0.500000 0.500000") := by
  constructor
  · intro class_name_to_id W H ann cn cid x1 y1 w h hcn hlk hex
    unfold annotationLine
    rw [hcn]
    show (match class_name_to_id.lookup cn with
      | none => none
      | some class_id =>
        match extractBox ann with
        | .error _ => none
        | .ok (x_min, y_min, w, h) =>
          let x_center := x_min + w / 2
          let y_center := y_min + h / 2
          let x_center_norm := clamp01 (x_center / (W : ℚ))
          let y_center_norm := clamp01 (y_center / (H : ℚ))
          let width_norm := clamp01 (w / (W : ℚ))
          let height_norm := clamp01 (h / (H : ℚ))
          some (yoloLine class_id x_center_norm y_center_norm width_norm height_norm)) = _
    rw [hlk]
    show (match extractBox ann with
      | .error _ => none
      | .ok (x_min, y_min, w, h) =>
        let x_center := x_min + w / 2
        let y_center := y_min + h / 2
        let x_center_norm := clamp01 (x_center / (W : ℚ))
        let y_center_norm := clamp01 (y_center / (H : ℚ))
        let width_norm := clamp01 (w / (W : ℚ))
        let height_norm := clamp01 (h / (H : ℚ))
        some (yoloLine cid x_center_norm y_center_norm width_norm height_norm)) = _
    rw [hex]
  · intro cid
    have hline : convert_to_yolo_format [annYolo] 200 100 [("c", cid)] =
        yoloLine cid (clamp01 ((0 + 100 / 2) / ((200 : ℤ) : ℚ)))
          (clamp01 ((0 + 50 / 2) / ((100 : ℤ) : ℚ)))
          (clamp01 ((100 : ℚ) / ((200 : ℤ) : ℚ)))
          (clamp01 ((50 : ℚ) / ((100 : ℤ) : ℚ))) := rfl
    rw [hline]
    have c1 : clamp01 ((0 + 100 / 2) / ((200 : ℤ) : ℚ)) = 1 / 4 := by
      rw [clamp01_of_mem] <;> norm_num
    have c2 : clamp01 ((0 + 50 / 2) / ((100 : ℤ) : ℚ)) = 1 / 4 := by
      rw [clamp01_of_mem] <;> norm_num
    have c3 : clamp01 ((100 : ℚ) / ((200 : ℤ) : ℚ)) = 1 / 2 := by
      rw [clamp01_of_mem] <;> norm_num
    have c4 : clamp01 ((50 : ℚ) / ((100 : ℤ) : ℚ)) = 1 / 2 := by
      rw [clamp01_of_mem] <;> norm_num
    rw [c1, c2, c3, c4]
    unfold yoloLine
    rw [fmt6_quarter, fmt6_half]
    exact intercalate_line (toString cid)

/-- C2 witness at `annYolo`, class id 3. -/
theorem yolo_export_line_witness :
    annotationLine [("c", 3)] 200 100 annYolo =
      some (yoloLine 3 (clamp01 ((0 + 100 / 2) / ((200 : ℤ) : ℚ)))
        (clamp01 ((0 + 50 / 2) / ((100 : ℤ) : ℚ)))
        (clamp01 ((100 : ℚ) / ((200 : ℤ) : ℚ)))
        (clamp01 ((50 : ℚ) / ((100 : ℤ) : ℚ)))) ∧
    convert_to_yolo_format [annYolo] 200 100 [("c", 3)] =
      "3 0.250000 0.250000 0.500000 0.500000" := by
  constructor
  · exact yolo_export_line.1 [("c", 3)] 200 100 annYolo "c" 3 0 0 100 50 rfl rfl rfl
  · rw [yolo_export_line.2 3]
    rfl

/-- C3: an empty annotation list or a non-positive image dimension yields
the empty string; a skipped annotation (missing/unknown class or malformed
box data) contributes nothing while all remaining annotations are still
emitted, so one bad record never aborts the export. -/
theorem yolo_export_error_handling :
    (∀ (W H : ℤ) (m : List (String × ℤ)), convert_to_yolo_format [] W H m = "") ∧
    (∀ (anns : List Annotation) (W H : ℤ) (m : List (String × ℤ)), W ≤ 0 →
        convert_to_yolo_format anns W H m = "") ∧
    (∀ (anns : List Annotation) (W H : ℤ) (m : List (String × ℤ)), H ≤ 0 →
        convert_to_yolo_format anns W H m = "") ∧
    (∀ (pre post : List Annotation) (bad : Annotation) (W H : ℤ)
        (m : List (String × ℤ)), 0 < W → 0 < H → skippedAnnotation m bad →
        annotationLine m W H bad = none ∧
        convert_to_yolo_format (pre ++ bad :: post) W H m =
          String.intercalate "\n" ((pre ++ post).filterMap (annotationLine m W H))) := by
  refine ⟨?_, ?_, ?_, ?_⟩
  · intro W H m
    simp [convert_to_yolo_format]
  · intro anns W H m hW
    simp [convert_to_yolo_format, hW]
  · intro anns W H m hH
    simp [convert_to_yolo_format, hH]
  · intro pre post bad W H m hW hH hbad
    have hnone := annotationLine_of_skipped m W H bad hbad
    refine ⟨hnone, ?_⟩
    unfold convert_to_yolo_format
    rw [if_neg]
    · rw [List.filterMap_append, List.filterMap_cons, hnone, List.filterMap_append]
    · push_neg
      refine ⟨by simp, by omega, by omega⟩

/-- C3 witness: concrete empty/invalid inputs and a concrete skipped
annotation surrounded by good ones. -/
theorem yolo_export_error_handling_witness :
    convert_to_yolo_format [] 5 5 [] = "" ∧
    convert_to_yolo_format [annYolo] 0 100 [("c", 1)] = "" ∧
    convert_to_yolo_format [annYolo] 200 (-3) [("c", 1)] = "" ∧
    (annotationLine [("c", 1)] 200 100 annUnknownClass = none ∧
      convert_to_yolo_format ([annYolo] ++ annUnknownClass :: [annYolo]) 200 100 [("c", 1)] =
        String.intercalate "\n"
          (([annYolo] ++ [annYolo]).filterMap (annotationLine [("c", 1)] 200 100))) := by
  refine ⟨?_, ?_, ?_, ?_⟩
  · exact yolo_export_error_handling.1 5 5 []
  · exact yolo_export_error_handling.2.1 [annYolo] 0 100 [("c", 1)] (by norm_num)
  · exact yolo_export_error_handling.2.2.1 [annYolo] 200 (-3) [("c", 1)] (by norm_num)
  · exact yolo_export_error_handling.2.2.2 [annYolo] [annYolo] annUnknownClass 200 100
      [("c", 1)] (by norm_num) (by norm_num) (Or.inr (Or.inl ⟨"zzz", rfl, rfl⟩))

/-- C7: denormalizing a normalized box to absolute pixels and normalizing
it back (the `handleMouseUp` conversion) returns the original box exactly,
hence within the claimed `1e-6` tolerance in every component. -/
theorem bbox_roundtrip (b : NBox) (W H : ℚ) (hW : 0 < W) (hH : 0 < H)
    (hx0 : 0 ≤ b.x1) (hx12 : b.x1 ≤ b.x2) (hx1 : b.x2 ≤ 1)
    (hy0 : 0 ≤ b.y1) (hy12 : b.y1 ≤ b.y2) (hy1 : b.y2 ≤ 1) :
    normalizeAbsBox (denormalizeBbox b W H) W H = b ∧
    |(normalizeAbsBox (denormalizeBbox b W H) W H).x1 - b.x1| ≤ 1 / 1000000 ∧
    |(normalizeAbsBox (denormalizeBbox b W H) W H).y1 - b.y1| ≤ 1 / 1000000 ∧
    |(normalizeAbsBox (denormalizeBbox b W H) W H).x2 - b.x2| ≤ 1 / 1000000 ∧
    |(normalizeAbsBox (denormalizeBbox b W H) W H).y2 - b.y2| ≤ 1 / 1000000 := by
  have hW0 : W ≠ 0 := ne_of_gt hW
  have hH0 : H ≠ 0 := ne_of_gt hH
  have heq : normalizeAbsBox (denormalizeBbox b W H) W H = b := by
    unfold normalizeAbsBox denormalizeBbox
    cases b
    simp only [NBox.mk.injEq]
    refine ⟨?_, ?_, ?_, ?_⟩ <;> field_simp <;> ring
  refine ⟨heq, ?_, ?_, ?_, ?_⟩ <;> rw [heq] <;> simp

/-- C7 witness at `b = [1/5, 1/10, 3/5, 1/2]`, `W = 640`, `H = 480`. -/
theorem bbox_roundtrip_witness :
    normalizeAbsBox
        (denormalizeBbox { x1 := 1/5, y1 := 1/10, x2 := 3/5, y2 := 1/2 } 640 480) 640 480 =
      { x1 := 1/5, y1 := 1/10, x2 := 3/5, y2 := 1/2 } := by
  exact (bbox_roundtrip { x1 := 1/5, y1 := 1/10, x2 := 3/5, y2 := 1/2 } 640 480
    (by norm_num) (by norm_num) (by norm_num) (by norm_num) (by norm_num)
    (by norm_num) (by norm_num) (by norm_num)).1

/-- C8: translating an object by `(dx, dy)` and then by `(-dx, -dy)`
returns the original object (bbox and mask exactly); a translation shifts
the box's absolute corners and every mask point by exactly `(dx, dy)`. -/
theorem translate_inverse_and_mask (obj : Obj) (dx dy W H : ℚ)
    (hW : 0 < W) (hH : 0 < H) :
    translateObj (translateObj obj dx dy W H) (-dx) (-dy) W H = obj ∧
    ((shiftBboxAndMask obj dx dy W H).1.x1 * W = obj.bbox.x1 * W + dx ∧
      (shiftBboxAndMask obj dx dy W H).1.y1 * H = obj.bbox.y1 * H + dy ∧
      (shiftBboxAndMask obj dx dy W H).1.x2 * W = obj.bbox.x2 * W + dx ∧
      (shiftBboxAndMask obj dx dy W H).1.y2 * H = obj.bbox.y2 * H + dy) ∧
    (∀ m, obj.mask = some m →
      (shiftBboxAndMask obj dx dy W H).2 =
        some (m.map fun pt => (pt.1 + dx, pt.2 + dy))) := by
  have hW0 : W ≠ 0 := ne_of_gt hW
  have hH0 : H ≠ 0 := ne_of_gt hH
  refine ⟨?_, ⟨?_, ?_, ?_, ?_⟩, ?_⟩
  · have hmk : ∀ o : Obj, o = Obj.mk o.class_id o.bbox o.mask o.confidence := fun o => rfl
    rw [hmk (translateObj (translateObj obj dx dy W H) (-dx) (-dy) W H)]
    cases obj with
    | mk cid bb mask conf =>
      simp only [Obj.mk.injEq]
      refine ⟨rfl, ?_, ?_, rfl⟩
      · show (shiftBboxAndMask (translateObj (Obj.mk cid bb mask conf) dx dy W H)
            (-dx) (-dy) W H).1 = bb
        cases bb with
        | mk bx1 by1 bx2 by2 =>
          show NBox.mk
            (((bx1 * W + dx) / W * W + -dx) / W) (((by1 * H + dy) / H * H + -dy) / H)
            (((bx2 * W + dx) / W * W + -dx) / W) (((by2 * H + dy) / H * H + -dy) / H) = _
          simp only [NBox.mk.injEq]
          refine ⟨?_, ?_, ?_, ?_⟩ <;> (field_simp; try ring)
      · rw [translateObj_mask, translateObj_mask]
        cases mask with
        | none => rfl
        | some m =>
          show some (List.map (fun pt : ℚ × ℚ => (pt.1 + -dx, pt.2 + -dy))
            (List.map (fun pt : ℚ × ℚ => (pt.1 + dx, pt.2 + dy)) m)) = some m
          have : ((fun pt : ℚ × ℚ => (pt.1 + -dx, pt.2 + -dy)) ∘
              fun pt : ℚ × ℚ => (pt.1 + dx, pt.2 + dy)) = id := by
            funext pt
            simp [Function.comp]
          rw [List.map_map, this, List.map_id]
  · unfold shiftBboxAndMask
    field_simp
  · unfold shiftBboxAndMask
    field_simp
  · unfold shiftBboxAndMask
    field_simp
  · unfold shiftBboxAndMask
    field_simp
  · intro m hm
    unfold shiftBboxAndMask
    rw [hm]
    rfl

/-- C8 witness at a concrete object with a two-point mask. -/
theorem translate_inverse_and_mask_witness :
    translateObj
        (translateObj
          { class_id := 0, bbox := { x1 := 1/4, y1 := 1/4, x2 := 1/2, y2 := 1/2 },
            mask := some [(30, 30), (40, 50)], confidence := 1 } 7 (-3) 100 100)
        (-7) (-(-3)) 100 100 =
      { class_id := 0, bbox := { x1 := 1/4, y1 := 1/4, x2 := 1/2, y2 := 1/2 },
        mask := some [(30, 30), (40, 50)], confidence := 1 } := by
  exact (translate_inverse_and_mask
    { class_id := 0, bbox := { x1 := 1/4, y1 := 1/4, x2 := 1/2, y2 := 1/2 },
      mask := some [(30, 30), (40, 50)], confidence := 1 } 7 (-3) 100 100
    (by norm_num) (by norm_num)).1

theorem effect_results (s : AppState) :
    (applyHiddenSelectionEffect s).results = s.results := by
  unfold applyHiddenSelectionEffect
  split
  · rfl
  · split <;> rfl

theorem effect_hidden (s : AppState) :
    (applyHiddenSelectionEffect s).hidden = s.hidden := by
  unfold applyHiddenSelectionEffect
  split
  · rfl
  · split <;> rfl

theorem effect_imagePromptBoxes (s : AppState) :
    (applyHiddenSelectionEffect s).imagePromptBoxes = s.imagePromptBoxes := by
  unfold applyHiddenSelectionEffect
  split
  · rfl
  · split <;> rfl

theorem effect_imagePromptCls (s : AppState) :
    (applyHiddenSelectionEffect s).imagePromptCls = s.imagePromptCls := by
  unfold applyHiddenSelectionEffect
  split
  · rfl
  · split <;> rfl

theorem effect_drawing (s : AppState) :
    (applyHiddenSelectionEffect s).drawing = s.drawing := by
  unfold applyHiddenSelectionEffect
  split
  · rfl
  · split <;> rfl

theorem effect_currentBox (s : AppState) :
    (applyHiddenSelectionEffect s).currentBox = s.currentBox := by
  unfold applyHiddenSelectionEffect
  split
  · rfl
  · split <;> rfl

theorem effect_editMode (s : AppState) :
    (applyHiddenSelectionEffect s).editMode = s.editMode := by
  unfold applyHiddenSelectionEffect
  split
  · rfl
  · split <;> rfl

/-- If the raw selection is hidden, the effect clears it. -/
theorem effect_of_selected_mem (t : AppState) (i : ℕ)
    (h1 : t.selectedObjectIndex = some i) (h2 : i ∈ t.hidden) :
    (applyHiddenSelectionEffect t).selectedObjectIndex = none := by
  unfold applyHiddenSelectionEffect
  rw [h1]
  show (if i ∈ t.hidden then { t with selectedObjectIndex := none } else t).selectedObjectIndex
    = none
  rw [if_pos h2]

/-- After the effect pass, the selection invariant always holds. -/
theorem effect_consistent (s : AppState) :
    selectionConsistent (applyHiddenSelectionEffect s) := by
  intro i hi
  cases hsel : s.selectedObjectIndex with
  | none =>
    have hid : applyHiddenSelectionEffect s = s := by
      unfold applyHiddenSelectionEffect
      rw [hsel]
    rw [hid] at hi
    rw [hsel] at hi
    simp at hi
  | some j =>
    have hred : applyHiddenSelectionEffect s =
        if j ∈ s.hidden then { s with selectedObjectIndex := none } else s := by
      unfold applyHiddenSelectionEffect
      rw [hsel]
    rw [hred] at hi ⊢
    by_cases hj : j ∈ s.hidden
    · rw [if_pos hj] at hi
      exact Option.noConfusion hi
    · rw [if_neg hj] at hi ⊢
      rw [hsel] at hi
      injection hi with e
      subst e
      exact hj

/-- C5: over all reachable states a hidden object is never the selected
object, and toggling the visibility of the currently selected (visible)
object clears the selection. -/
theorem hidden_never_selected :
    (∀ s : AppState, Reachable s → selectionConsistent s) ∧
    (∀ (s : AppState) (i : ℕ), s.selectedObjectIndex = some i → i ∉ s.hidden →
      (step (Event.toggleVisibility i) s).selectedObjectIndex = none) := by
  constructor
  · intro s hs
    induction hs with
    | start =>
      intro i hi
      cases hi
    | next e hs ih => exact effect_consistent _
  · intro s i hsel hmem
    apply effect_of_selected_mem
    · exact hsel
    · show i ∈ toggleObjectVisibility s.hidden i
      unfold toggleObjectVisibility
      rw [if_neg hmem]
      simp

/-- C5 witness: select object 0 from the initial state, then hide it; the
selection is cleared. -/
theorem hidden_never_selected_witness :
    (step (Event.toggleVisibility 0) (step (Event.selectObject 0) initState)).selectedObjectIndex
      = none := by
  apply hidden_never_selected.2
  · rfl
  · simp [step, rawStep, applyHiddenSelectionEffect, initState]

/-- C10: with no replacement mask, the geometry update replaces exactly the
indexed object's bbox — its mask, class id and confidence survive, every
other object survives, the hidden set and selection are untouched — and an
out-of-range index (or a missing result set) changes nothing. -/
theorem updateBbox_geometry_only :
    (∀ (rs : ResultSet) (i : ℕ) (obj : Obj) (b : NBox),
        rs.objects.get? i = some obj →
        updateBboxInResults (some rs) i b none =
          some { rs with objects := rs.objects.set i { obj with bbox := b } } ∧
        (∀ j : ℕ, j ≠ i →
          (rs.objects.set i { obj with bbox := b }).get? j = rs.objects.get? j)) ∧
    (∀ (rs : ResultSet) (i : ℕ) (b : NBox) (m : Option (List (ℚ × ℚ))),
        rs.objects.get? i = none → updateBboxInResults (some rs) i b m = some rs) ∧
    (∀ (i : ℕ) (b : NBox) (m : Option (List (ℚ × ℚ))),
        updateBboxInResults none i b m = none) ∧
    (∀ (s : AppState) (i : ℕ) (b : NBox) (m : Option (List (ℚ × ℚ))),
        (step (Event.updateBbox i b m) s).hidden = s.hidden ∧
        (rawStep (Event.updateBbox i b m) s).selectedObjectIndex =
          s.selectedObjectIndex) := by
  have hsome : ∀ (rs : ResultSet) (i : ℕ) (b : NBox) (m : Option (List (ℚ × ℚ))),
      updateBboxInResults (some rs) i b m =
        match rs.objects.get? i with
        | none => some rs
        | some obj =>
          some { rs with
                   objects := rs.objects.set i
                     { obj with
                         bbox := b
                         mask := match m with
                           | some mm => some mm
                           | none => obj.mask } } := fun _ _ _ _ => rfl
  refine ⟨?_, ?_, ?_, ?_⟩
  · intro rs i obj b hget
    constructor
    · rw [hsome, hget]
    · intro j hj
      exact List.get?_set_ne _ _ fun h => hj h.symm
  · intro rs i b m hget
    rw [hsome, hget]
  · intro i b m
    rfl
  · intro s i b m
    exact ⟨by rw [step, effect_hidden]; exact rfl, rfl⟩

/-- C10 witness on the three-object result set. -/
theorem updateBbox_geometry_only_witness :
    updateBboxInResults (some rsThree) 1 { x1 := 0, y1 := 0, x2 := 1/2, y2 := 1/2 } none =
      some { classes := ["a"],
             objects := [mkObj 0,
               { class_id := 1, bbox := { x1 := 0, y1 := 0, x2 := 1/2, y2 := 1/2 },
                 mask := none, confidence := 1 },
               mkObj 2] } ∧
    updateBboxInResults (some rsThree) 7 { x1 := 0, y1 := 0, x2 := 1/2, y2 := 1/2 } none =
      some rsThree := by
  constructor
  · exact (updateBbox_geometry_only.1 rsThree 1 (mkObj 1)
      { x1 := 0, y1 := 0, x2 := 1/2, y2 := 1/2 } rfl).1
  · exact updateBbox_geometry_only.2.1 rsThree 7
      { x1 := 0, y1 := 0, x2 := 1/2, y2 := 1/2 } none rfl

theorem runTrace_append (l1 l2 : List Event) (s : AppState) :
    runTrace (l1 ++ l2) s = runTrace l2 (runTrace l1 s) := by
  unfold runTrace
  exact List.foldl_append _ _ _ _

/-- Under an active draw gesture, pointer-up is the finalize block followed
by clearing the gesture. -/
theorem handleMouseUp_draw (s : AppState) (box : AbsBox)
    (hdraw : s.drawing = true) (hbox : s.currentBox = some box)
    (himg : s.imageLoaded = true) (hmode : s.editMode = EditMode.draw) :
    handleMouseUp s =
      { finalizeDrawnBox s box with drawing := false, currentBox := none } := by
  have hpan : ¬(s.isDragging = true ∧ s.editMode = EditMode.pan) := by
    rintro ⟨-, h⟩
    rw [hmode] at h
    cases h
  unfold handleMouseUp
  rw [if_neg hpan, hbox]
  show (if s.drawing ∧ s.imageLoaded ∧ s.editMode = EditMode.draw then
      { finalizeDrawnBox s box with drawing := false, currentBox := none }
    else s) = _
  rw [if_pos ⟨hdraw, himg, hmode⟩]

theorem finalizeDrawnBox_prompt (s : AppState) (box : AbsBox)
    (hw : box.width > 5) (hh : box.height > 5)
    (hdm : s.detectionMode = DetMode.imagePrompt) :
    finalizeDrawnBox s box =
      { s with
          imagePromptBoxes := s.imagePromptBoxes ++ [normalizeAbsBox box s.imgW s.imgH]
          imagePromptCls := s.imagePromptCls ++ [0] } := by
  unfold finalizeDrawnBox
  rw [if_pos ⟨hw, hh⟩, if_pos hdm]

theorem finalizeDrawnBox_results (s : AppState) (box : AbsBox) (rs : ResultSet)
    (hw : box.width > 5) (hh : box.height > 5)
    (hdm : s.detectionMode ≠ DetMode.imagePrompt) (hres : s.results = some rs) :
    finalizeDrawnBox s box =
      { s with
          results := some
            { rs with
                objects := rs.objects ++
                  [{ class_id := 0, bbox := normalizeAbsBox box s.imgW s.imgH,
                     mask := none, confidence := 1 }] } } := by
  unfold finalizeDrawnBox
  rw [if_pos ⟨hw, hh⟩, if_neg hdm, if_pos (show s.results.isSome = true by rw [hres]; rfl),
    hres]
  rfl

theorem finalizeDrawnBox_noTarget (s : AppState) (box : AbsBox)
    (hdm : s.detectionMode ≠ DetMode.imagePrompt) (hres : s.results = none) :
    finalizeDrawnBox s box = s := by
  unfold finalizeDrawnBox
  by_cases hwh : box.width > 5 ∧ box.height > 5
  · rw [if_pos hwh, if_neg hdm,
      if_neg (show ¬s.results.isSome = true by rw [hres]; simp)]
  · rw [if_neg hwh]

theorem finalizeDrawnBox_small (s : AppState) (box : AbsBox)
    (h : ¬(box.width > 5 ∧ box.height > 5)) : finalizeDrawnBox s box = s := by
  unfold finalizeDrawnBox
  rw [if_neg h]

/-- C4 (counterexample): in `text-prompt` detection mode with no result set
for the image, an above-threshold (10×10 > 5) drawn box commits nothing on
pointer-up: no object set is touched or created and the prompt list stays
empty — refuting the claimed "committed if and only if width and height
exceed 5". -/
theorem mouseUp_commit_requires_target_cex :
    sDrawText.drawing = true ∧
    sDrawText.currentBox = some { x := 0, y := 0, width := 10, height := 10 } ∧
    ((10 : ℚ) > 5) ∧
    sDrawText.results = none ∧
    (step Event.mouseUp sDrawText).results = none ∧
    (step Event.mouseUp sDrawText).imagePromptBoxes = [] ∧
    (step Event.mouseUp sDrawText).imagePromptCls = [] := by
  refine ⟨rfl, rfl, by norm_num, rfl, rfl, rfl, rfl⟩

/-- C4 (amended): on pointer-up with an active draw gesture, a new object
is committed iff the box's width and height each exceed 5 **and** a commit
target exists — in image-prompt mode the box is appended to the prompt
list; otherwise it is appended to the result set only when one already
exists, and with no result set even an above-threshold box is dropped.
Sub-threshold boxes are always discarded silently with the store,
prompt list and hidden set unchanged. -/
theorem mouseUp_commit_iff_threshold_and_target (s : AppState) (box : AbsBox)
    (hdraw : s.drawing = true) (hbox : s.currentBox = some box)
    (himg : s.imageLoaded = true) (hmode : s.editMode = EditMode.draw) :
    (box.width > 5 → box.height > 5 → s.detectionMode = DetMode.imagePrompt →
      (step Event.mouseUp s).imagePromptBoxes =
        s.imagePromptBoxes ++ [normalizeAbsBox box s.imgW s.imgH] ∧
      (step Event.mouseUp s).imagePromptCls = s.imagePromptCls ++ [0] ∧
      (step Event.mouseUp s).results = s.results) ∧
    (∀ rs : ResultSet, box.width > 5 → box.height > 5 →
      s.detectionMode ≠ DetMode.imagePrompt → s.results = some rs →
      (step Event.mouseUp s).results =
        some { rs with
                 objects := rs.objects ++
                   [{ class_id := 0, bbox := normalizeAbsBox box s.imgW s.imgH,
                      mask := none, confidence := 1 }] } ∧
      (step Event.mouseUp s).imagePromptBoxes = s.imagePromptBoxes) ∧
    (s.detectionMode ≠ DetMode.imagePrompt → s.results = none →
      (step Event.mouseUp s).results = none ∧
      (step Event.mouseUp s).imagePromptBoxes = s.imagePromptBoxes) ∧
    (¬(box.width > 5 ∧ box.height > 5) →
      (step Event.mouseUp s).results = s.results ∧
      (step Event.mouseUp s).imagePromptBoxes = s.imagePromptBoxes ∧
      (step Event.mouseUp s).imagePromptCls = s.imagePromptCls ∧
      (step Event.mouseUp s).hidden = s.hidden ∧
      (step Event.mouseUp s).drawing = false ∧
      (step Event.mouseUp s).currentBox = none) := by
  have hmu := handleMouseUp_draw s box hdraw hbox himg hmode
  refine ⟨?_, ?_, ?_, ?_⟩
  · intro hw hh hdm
    have hf := finalizeDrawnBox_prompt s box hw hh hdm
    refine ⟨?_, ?_, ?_⟩
    · rw [step, effect_imagePromptBoxes]
      show (handleMouseUp s).imagePromptBoxes = _
      rw [hmu, hf]
    · rw [step, effect_imagePromptCls]
      show (handleMouseUp s).imagePromptCls = _
      rw [hmu, hf]
    · rw [step, effect_results]
      show (handleMouseUp s).results = _
      rw [hmu, hf]
  · intro rs hw hh hdm hres
    have hf := finalizeDrawnBox_results s box rs hw hh hdm hres
    refine ⟨?_, ?_⟩
    · rw [step, effect_results]
      show (handleMouseUp s).results = _
      rw [hmu, hf]
    · rw [step, effect_imagePromptBoxes]
      show (handleMouseUp s).imagePromptBoxes = _
      rw [hmu, hf]
  · intro hdm hres
    have hf := finalizeDrawnBox_noTarget s box hdm hres
    refine ⟨?_, ?_⟩
    · rw [step, effect_results]
      show (handleMouseUp s).results = _
      rw [hmu, hf]
      exact hres
    · rw [step, effect_imagePromptBoxes]
      show (handleMouseUp s).imagePromptBoxes = _
      rw [hmu, hf]
  · intro hwh
    have hf := finalizeDrawnBox_small s box hwh
    refine ⟨?_, ?_, ?_, ?_, ?_, ?_⟩
    · rw [step, effect_results]
      show (handleMouseUp s).results = _
      rw [hmu, hf]
    · rw [step, effect_imagePromptBoxes]
      show (handleMouseUp s).imagePromptBoxes = _
      rw [hmu, hf]
    · rw [step, effect_imagePromptCls]
      show (handleMouseUp s).imagePromptCls = _
      rw [hmu, hf]
    · rw [step, effect_hidden]
      show (handleMouseUp s).hidden = _
      rw [hmu, hf]
    · rw [step, effect_drawing]
      show (handleMouseUp s).drawing = _
      rw [hmu]
    · rw [step, effect_currentBox]
      show (handleMouseUp s).currentBox = _
      rw [hmu]

/-- C4 witness: the sub-threshold branch at the concrete 3×3 box state. -/
theorem mouseUp_commit_iff_threshold_and_target_witness :
    (step Event.mouseUp sSmallBox).results = none ∧
    (step Event.mouseUp sSmallBox).imagePromptBoxes = [] ∧
    (step Event.mouseUp sSmallBox).drawing = false ∧
    (step Event.mouseUp sSmallBox).currentBox = none := by
  have h := (mouseUp_commit_iff_threshold_and_target sSmallBox
    { x := 0, y := 0, width := 3, height := 3 } rfl rfl rfl rfl).2.2.2
    (by rintro ⟨h1, -⟩; norm_num at h1)
  exact ⟨h.1, h.2.1, h.2.2.2.2.1, h.2.2.2.2.2⟩

/-- C6 (counterexample): switching the mode away from Draw mid-gesture
leaves the half-drawn 10×10 box in place (nothing is cancelled), and after
switching back to Draw a pointer-up still commits that box to the prompt
list — so an object from the interrupted gesture is committed after all,
refuting "no object from that gesture is ever committed regardless of
subsequent ... later mode-switch events". -/
theorem modeSwitch_retains_draft_cex :
    (runTrace traceModeSwitchPrefix initState).imagePromptBoxes = [] ∧
    (runTrace traceModeSwitchPrefix initState).results = none ∧
    (runTrace traceModeSwitchPrefix initState).editMode = EditMode.select ∧
    (runTrace traceModeSwitchPrefix initState).currentBox =
      some { x := 0, y := 0, width := 10, height := 10 } ∧
    (runTrace traceModeSwitch initState).imagePromptBoxes =
      [{ x1 := 0, y1 := 0, x2 := 1 / 10, y2 := 1 / 10 }] := by
  have h3 : step (Event.mouseDownStage 0 0)
      { initState with
          imgW := 100, imgH := 100, scale := 1, imageLoaded := true,
          detectionMode := DetMode.imagePrompt, editMode := EditMode.draw } =
      { initState with
          imgW := 100, imgH := 100, scale := 1, imageLoaded := true,
          detectionMode := DetMode.imagePrompt, editMode := EditMode.draw,
          drawing := true, startPoint := (0, 0),
          currentBox := some { x := 0, y := 0, width := 0, height := 0 } } := by
    have hr : step (Event.mouseDownStage 0 0)
        { initState with
            imgW := 100, imgH := 100, scale := 1, imageLoaded := true,
            detectionMode := DetMode.imagePrompt, editMode := EditMode.draw } =
        { initState with
            imgW := 100, imgH := 100, scale := 1, imageLoaded := true,
            detectionMode := DetMode.imagePrompt, editMode := EditMode.draw,
            drawing := true, startPoint := ((0 - 0) / 1, (0 - 0) / 1),
            currentBox := some
              { x := (0 - 0) / 1, y := (0 - 0) / 1, width := 0, height := 0 } } := rfl
    rw [hr]
    norm_num [initState, AppState.mk.injEq, AbsBox.mk.injEq, Prod.mk.injEq]
  have h4 : step (Event.mouseMove 10 10 0 0)
      { initState with
          imgW := 100, imgH := 100, scale := 1, imageLoaded := true,
          detectionMode := DetMode.imagePrompt, editMode := EditMode.draw,
          drawing := true, startPoint := (0, 0),
          currentBox := some { x := 0, y := 0, width := 0, height := 0 } } =
      { initState with
          imgW := 100, imgH := 100, scale := 1, imageLoaded := true,
          detectionMode := DetMode.imagePrompt, editMode := EditMode.draw,
          drawing := true, startPoint := (0, 0),
          currentBox := some { x := 0, y := 0, width := 10, height := 10 } } := by
    have hr : step (Event.mouseMove 10 10 0 0)
        { initState with
            imgW := 100, imgH := 100, scale := 1, imageLoaded := true,
            detectionMode := DetMode.imagePrompt, editMode := EditMode.draw,
            drawing := true, startPoint := (0, 0),
            currentBox := some { x := 0, y := 0, width := 0, height := 0 } } =
        { initState with
            imgW := 100, imgH := 100, scale := 1, imageLoaded := true,
            detectionMode := DetMode.imagePrompt, editMode := EditMode.draw,
            drawing := true, startPoint := (0, 0),
            currentBox := some
              { x := min ((10 - 0) / 1) 0, y := min ((10 - 0) / 1) 0,
                width := |(10 - 0) / 1 - 0|, height := |(10 - 0) / 1 - 0| } } := rfl
    rw [hr]
    have habs : |((10 : ℚ) - 0) / 1 - 0| = 10 := by
      rw [abs_of_nonneg] <;> norm_num
    have hmin : min (((10 : ℚ) - 0) / 1) 0 = 0 := by
      rw [min_def]
      norm_num
    rw [habs, hmin]
  have hP : runTrace traceModeSwitchPrefix initState =
      { initState with
          imgW := 100, imgH := 100, scale := 1, imageLoaded := true,
          detectionMode := DetMode.imagePrompt, editMode := EditMode.select,
          drawing := true, startPoint := (0, 0),
          currentBox := some { x := 0, y := 0, width := 10, height := 10 } } := by
    rw [runTrace, traceModeSwitchPrefix]
    rw [List.foldl_cons, show step (Event.imageLoad 100 100 1) initState =
      { initState with
          imgW := 100, imgH := 100, scale := 1, imageLoaded := true } from rfl]
    rw [List.foldl_cons, show step (Event.setDetectionMode DetMode.imagePrompt)
      { initState with
          imgW := 100, imgH := 100, scale := 1, imageLoaded := true } =
      { initState with
          imgW := 100, imgH := 100, scale := 1, imageLoaded := true,
          detectionMode := DetMode.imagePrompt, editMode := EditMode.draw } from rfl]
    rw [List.foldl_cons, h3, List.foldl_cons, h4, List.foldl_cons,
      show step (Event.switchMode EditMode.select)
        { initState with
            imgW := 100, imgH := 100, scale := 1, imageLoaded := true,
            detectionMode := DetMode.imagePrompt, editMode := EditMode.draw,
            drawing := true, startPoint := (0, 0),
            currentBox := some { x := 0, y := 0, width := 10, height := 10 } } =
        { initState with
            imgW := 100, imgH := 100, scale := 1, imageLoaded := true,
            detectionMode := DetMode.imagePrompt, editMode := EditMode.select,
            drawing := true, startPoint := (0, 0),
            currentBox := some { x := 0, y := 0, width := 10, height := 10 } } from rfl,
      List.foldl_nil]
  refine ⟨by rw [hP]; try exact rfl, by rw [hP]; try exact rfl, by rw [hP]; try exact rfl,
    by rw [hP]; try exact rfl, ?_⟩
  rw [traceModeSwitch, runTrace_append, hP]
  rw [runTrace, List.foldl_cons,
    show step (Event.switchMode EditMode.draw)
      { initState with
          imgW := 100, imgH := 100, scale := 1, imageLoaded := true,
          detectionMode := DetMode.imagePrompt, editMode := EditMode.select,
          drawing := true, startPoint := (0, 0),
          currentBox := some { x := 0, y := 0, width := 10, height := 10 } } =
      { initState with
          imgW := 100, imgH := 100, scale := 1, imageLoaded := true,
          detectionMode := DetMode.imagePrompt, editMode := EditMode.draw,
          drawing := true, startPoint := (0, 0),
          currentBox := some { x := 0, y := 0, width := 10, height := 10 } } from rfl]
  rw [List.foldl_cons,
    show step Event.mouseUp
      { initState with
          imgW := 100, imgH := 100, scale := 1, imageLoaded := true,
          detectionMode := DetMode.imagePrompt, editMode := EditMode.draw,
          drawing := true, startPoint := (0, 0),
          currentBox := some { x := 0, y := 0, width := 10, height := 10 } } =
      { initState with
          imgW := 100, imgH := 100, scale := 1, imageLoaded := true,
          detectionMode := DetMode.imagePrompt, editMode := EditMode.draw,
          startPoint := (0, 0),
          imagePromptBoxes :=
            [{ x1 := 0 / 100, y1 := 0 / 100, x2 := (0 + 10) / 100,
               y2 := (0 + 10) / 100 }],
          imagePromptCls := [0] } from rfl,
    List.foldl_nil]
  norm_num [initState, NBox.mk.injEq]

/-- C6 (amended): while the mode is away from Draw, pointer events neither
update nor commit the retained half-drawn box — pointer-up leaves the
result set, the prompt lists, the box and the drawing flag untouched, and
pointer-move leaves the box untouched — and a mode switch itself never
clears the box or the drawing flag (so the box survives and can be
committed after switching back to Draw, as the counterexample shows). -/
theorem modeSwitch_no_commit_while_away :
    (∀ (s : AppState) (m : EditMode), m ≠ EditMode.draw →
      (step (Event.switchMode m) s).currentBox = s.currentBox ∧
      (step (Event.switchMode m) s).drawing = s.drawing) ∧
    (∀ s : AppState, s.editMode ≠ EditMode.draw →
      (step Event.mouseUp s).results = s.results ∧
      (step Event.mouseUp s).imagePromptBoxes = s.imagePromptBoxes ∧
      (step Event.mouseUp s).imagePromptCls = s.imagePromptCls ∧
      (step Event.mouseUp s).currentBox = s.currentBox ∧
      (step Event.mouseUp s).drawing = s.drawing) ∧
    (∀ (s : AppState) (px py mdx mdy : ℚ), s.editMode ≠ EditMode.draw →
      (step (Event.mouseMove px py mdx mdy) s).currentBox = s.currentBox) := by
  refine ⟨?_, ?_, ?_⟩
  · intro s m hm
    constructor
    · rw [step, effect_currentBox]
      exact rfl
    · rw [step, effect_drawing]
      exact rfl
  · intro s hmode
    by_cases hp : s.isDragging = true ∧ s.editMode = EditMode.pan
    · have h : handleMouseUp s = { s with isDragging := false } := by
        unfold handleMouseUp
        rw [if_pos hp]
      refine ⟨?_, ?_, ?_, ?_, ?_⟩ <;>
        first
        | (rw [step, effect_results]; show (handleMouseUp s).results = _; rw [h])
        | (rw [step, effect_imagePromptBoxes]
           show (handleMouseUp s).imagePromptBoxes = _
           rw [h])
        | (rw [step, effect_imagePromptCls]
           show (handleMouseUp s).imagePromptCls = _
           rw [h])
        | (rw [step, effect_currentBox]; show (handleMouseUp s).currentBox = _; rw [h])
        | (rw [step, effect_drawing]; show (handleMouseUp s).drawing = _; rw [h])
    · have h : handleMouseUp s = s := by
        unfold handleMouseUp
        rw [if_neg hp]
        cases hcb : s.currentBox with
        | none => rfl
        | some box =>
          show (if s.drawing = true ∧ s.imageLoaded = true ∧ s.editMode = EditMode.draw then
              { finalizeDrawnBox s box with drawing := false, currentBox := none }
            else s) = s
          rw [if_neg]
          rintro ⟨-, -, h3⟩
          exact hmode h3
      refine ⟨?_, ?_, ?_, ?_, ?_⟩ <;>
        first
        | (rw [step, effect_results]; show (handleMouseUp s).results = _; rw [h])
        | (rw [step, effect_imagePromptBoxes]
           show (handleMouseUp s).imagePromptBoxes = _
           rw [h])
        | (rw [step, effect_imagePromptCls]
           show (handleMouseUp s).imagePromptCls = _
           rw [h])
        | (rw [step, effect_currentBox]; show (handleMouseUp s).currentBox = _; rw [h])
        | (rw [step, effect_drawing]; show (handleMouseUp s).drawing = _; rw [h])
  · intro s px py mdx mdy hmode
    rw [step, effect_currentBox]
    show (handleMouseMove s px py mdx mdy).currentBox = _
    by_cases hp : s.isDragging = true ∧ s.editMode = EditMode.pan
    · have h : handleMouseMove s px py mdx mdy =
          { s with stagePosition := (s.stagePosition.1 + mdx, s.stagePosition.2 + mdy) } := by
        unfold handleMouseMove
        rw [if_pos hp]
      rw [h]
    · have h : handleMouseMove s px py mdx mdy = s := by
        unfold handleMouseMove
        rw [if_neg hp, if_neg]
        rintro ⟨-, h2⟩
        exact hmode h2
      rw [h]

/-- C6 amended-claim witness: switching away from Draw at the concrete
mid-draw state keeps the 10×10 box, and a pointer-up in Select mode
commits nothing. -/
theorem modeSwitch_no_commit_while_away_witness :
    (step (Event.switchMode EditMode.select) sDrawText).currentBox =
      some { x := 0, y := 0, width := 10, height := 10 } ∧
    (step Event.mouseUp (step (Event.switchMode EditMode.select) sDrawText)).results =
      none ∧
    (step Event.mouseUp (step (Event.switchMode EditMode.select) sDrawText)).imagePromptBoxes
      = [] := by
  have h1 := (modeSwitch_no_commit_while_away.1 sDrawText EditMode.select
    (by intro h; cases h)).1
  have h2 := modeSwitch_no_commit_while_away.2.1
    (step (Event.switchMode EditMode.select) sDrawText) (by intro h; cases h)
  exact ⟨h1, h2.1, h2.2.1⟩

/-- C9 (counterexample): in `prompt-free` detection mode with no result set
for the image, committing a valid 10×10 drawn box creates nothing: the
image still has no result-set store afterwards — refuting "committing a
valid drawn box on an image that has no existing result set creates the
store and appends that object". -/
theorem drawn_box_no_store_creation_cex :
    sDrawFree.results = none ∧
    sDrawFree.drawing = true ∧
    sDrawFree.currentBox = some { x := 0, y := 0, width := 10, height := 10 } ∧
    ((10 : ℚ) > 5) ∧
    (step Event.mouseUp sDrawFree).results = none ∧
    addBboxToResults none { x1 := 0, y1 := 0, x2 := 1/10, y2 := 1/10 } 0 none = none := by
  refine ⟨rfl, rfl, rfl, by norm_num, rfl, rfl⟩

/-- C9 (amended): a result-set store for an image comes into existence only
when detection results arrive (which replace the store wholesale); a drawn
box is appended to an existing store but never creates one — with no store
the drawn box is dropped. -/
theorem store_creation_on_detection :
    (∀ (s : AppState) (r : ResultSet),
      (step (Event.detectionArrived r) s).results = some r) ∧
    (∀ (rs : ResultSet) (b : NBox) (cid : ℤ) (m : Option (List (ℚ × ℚ))),
      addBboxToResults (some rs) b cid m =
        some { rs with
                 objects := rs.objects ++
                   [{ class_id := cid, bbox := b, mask := m, confidence := 1 }] }) ∧
    (∀ (b : NBox) (cid : ℤ) (m : Option (List (ℚ × ℚ))),
      addBboxToResults none b cid m = none) := by
  refine ⟨?_, fun _ _ _ _ => rfl, fun _ _ _ => rfl⟩
  intro s r
  rw [step, effect_results]
  exact rfl

end EurekAnno
